import Mathlib

/-
Shallow embedding of the serverless integration functions and the HTTP
client wrapper of the scrum-master-ai repository.

Each Deno `serve` handler is modelled as a pure function from the request,
the environment secrets, and the (scripted) upstream responses to an HTTP
response paired with the ordered trace of external network calls the
handler performs.  JavaScript string truthiness (`!x` is true for both
`undefined` and `""`) is modelled by `truthyStr` on `Option String`.
-/

/-- CORS headers attached to every integration-function response
(src/frontend/supabase/functions/ * /index.ts, `corsHeaders`). -/
def corsHeaders : List (String × String) :=
  [("Access-Control-Allow-Origin", "*"),
   ("Access-Control-Allow-Headers", "authorization, x-client-info, apikey, content-type")]

/-- JavaScript truthiness of a possibly-absent string: `undefined` and `""` are falsy. -/
def truthyStr : Option String → Bool
  | some s => s != ("")
  | none => false

/-- JavaScript `o || d` for a possibly-absent string `o`. -/
def orDefault (o : Option String) (d : String) : String :=
  match o with
  | some s => if s = ("") then d else s
  | none => d

/-- An HTTP response as produced by the handlers: status, headers, and an
optional structured JSON body (`none` models a null/empty body). -/
structure HttpResponse (β : Type) where
  status : Nat := 200
  headers : List (String × String) := []
  body : Option β := none
deriving DecidableEq

/-- A JSON response with CORS headers, as built by
`new Response(JSON.stringify(b), { status, headers: { ...corsHeaders, "Content-Type": "application/json" } })`. -/
def jsonResp {β : Type} (status : Nat) (b : β) : HttpResponse β :=
  { status := status,
    headers := corsHeaders ++ [("Content-Type", "application/json")],
    body := some b }

/-- A Slack channel object as inspected by the handlers: only the fields the
code reads (`id`, `name`, `name_normalized`, `is_private`), each possibly absent. -/
structure SlackChannel where
  id : Option String := none
  name : Option String := none
  name_normalized : Option String := none
  is_private : Option Bool := none
deriving DecidableEq

/-- A parsed Slack Web API JSON response; only the fields the handlers read.
Absent JSON fields are `none` / `[]`. -/
structure SlackResp where
  ok : Bool := false
  error : Option String := none
  channel : Option String := none
  ts : Option String := none
  channels : List SlackChannel := []
  team : Option String := none
  team_id : Option String := none
  user : Option String := none
  user_id : Option String := none
  bot_id : Option String := none
  url : Option String := none
deriving DecidableEq

/-- Character class `[A-Z0-9]` under the regex `i` flag: ASCII letter or digit. -/
def idBodyChar (c : Char) : Bool :=
  decide ((65 ≤ c.toNat ∧ c.toNat ≤ 90) ∨ (97 ≤ c.toNat ∧ c.toNat ≤ 122)
    ∨ (48 ≤ c.toNat ∧ c.toNat ≤ 57))

/-- The slack-post identifier test `/^([CDG])[A-Z0-9]+$/i`: first character is
C, D or G (either case), followed by at least one ASCII letter or digit. -/
def isSlackIdLike (s : String) : Bool :=
  match s.data with
  | [] => false
  | c :: rest =>
    (c == 'C' || c == 'D' || c == 'G' || c == 'c' || c == 'd' || c == 'g')
      && (!rest.isEmpty) && rest.all idBodyChar

/-- Drop one leading `#`: `raw.startsWith("#") ? raw.slice(1) : raw`
(the one-character prefix test is phrased on the head character so that it
evaluates by kernel reduction). -/
def stripHash (raw : String) : String :=
  if raw.data.head? = some '#' then raw.drop 1 else raw

/-- The slack-post name-match predicate on one listed channel:
`c?.name === nameOrId || c?.name_normalized === nameOrId`. -/
def matchesName (nameOrId : String) (c : SlackChannel) : Bool :=
  c.name == some nameOrId || c.name_normalized == some nameOrId

/-- The slack-post by-name resolution against the `conversations.list` payload:
when the list response is `ok`, the first channel whose `name` or
`name_normalized` equals the reference supplies its `id` (if truthy);
otherwise the reference is kept unchanged. -/
def resolveChannel (nameOrId : String) (listData : SlackResp) : String :=
  if listData.ok = true then
    match listData.channels.find? (matchesName nameOrId) with
    | some m =>
      match m.id with
      | some i => if i = ("") then nameOrId else i
      | none => nameOrId
    | none => nameOrId
  else nameOrId

/-- The channel identifier slack-post ends up posting to, for a raw reference. -/
def resolvedChannelId (raw : String) (listData : SlackResp) : String :=
  let nameOrId := stripHash raw
  if isSlackIdLike nameOrId = true then nameOrId else resolveChannel nameOrId listData

/-- One external Slack Web API call made by the slack-post handler. -/
inductive SlackCall
  | listCall
  | postCall (channel text : String)
  | joinCall (channel : String)
deriving DecidableEq

/-- The list calls the resolution step performs: none for an identifier-like
reference, exactly one `conversations.list` call otherwise. -/
def resolutionCalls (raw : String) : List SlackCall :=
  if isSlackIdLike (stripHash raw) = true then [] else [SlackCall.listCall]

/-- Scripted upstream responses for one slack-post invocation: the
`conversations.list` payload, the first `chat.postMessage` payload, the
`conversations.join` payload, and the retry `chat.postMessage` payload. -/
structure SlackPostWorld where
  listResp : SlackResp := {}
  post1 : SlackResp := {}
  joinResp : SlackResp := {}
  post2 : SlackResp := {}
deriving DecidableEq

/-- The JSON body shapes the slack-post handler can answer with. -/
inductive SlackPostBody
  | errMissingSecret
  | errMissingFields
  | errJoinFailed (details : SlackResp)
  | errPostFailed (details : SlackResp)
  | okPosted (channel ts : Option String)
  | errCaught
deriving DecidableEq

/-- Parsed slack-post request body `{ channel, text }`, each field possibly absent. -/
structure SlackPostReqBody where
  channel : Option String := none
  text : Option String := none
deriving DecidableEq

/-- A slack-post request: its method and its parsed JSON body
(`none` models a body that fails to parse). -/
structure SlackPostReq where
  method : String := ("POST")
  body : Option SlackPostReqBody := none
deriving DecidableEq

/-- The trailing `if (!data?.ok)` check of slack-post: error envelope with the
upstream payload as `details`, or the success envelope `{ ok, channel, ts }`. -/
def finishPost (d : SlackResp) : HttpResponse SlackPostBody :=
  if d.ok = false then jsonResp 400 (SlackPostBody.errPostFailed d)
  else jsonResp 200 (SlackPostBody.okPosted d.channel d.ts)

/-- Core of the slack-post handler after validation: resolve the channel,
post, and on `not_in_channel` join once and retry once (only when the join
succeeded).  Returns the response and the ordered trace of Slack calls. -/
def slackPostCore (raw txt : String) (w : SlackPostWorld) :
    HttpResponse SlackPostBody × List SlackCall :=
  let channelId := resolvedChannelId raw w.listResp
  let calls0 := resolutionCalls raw
  let data := w.post1
  let calls1 := calls0 ++ [SlackCall.postCall channelId txt]
  if data.ok = false ∧ data.error = some ("not_in_channel") then
    let joinData := w.joinResp
    let calls2 := calls1 ++ [SlackCall.joinCall channelId]
    if joinData.ok = true then
      (finishPost w.post2, calls2 ++ [SlackCall.postCall channelId txt])
    else
      (jsonResp 400 (SlackPostBody.errJoinFailed joinData), calls2)
  else
    (finishPost data, calls1)

/-- The slack-post serve handler: OPTIONS short-circuit, secret check,
body validation, then the resolution/post/join/retry core. -/
def slackPostHandler (req : SlackPostReq) (token : Option String) (w : SlackPostWorld) :
    HttpResponse SlackPostBody × List SlackCall :=
  if req.method = ("OPTIONS") then
    ({ status := 200, headers := corsHeaders, body := none }, [])
  else if truthyStr token = false then
    (jsonResp 500 SlackPostBody.errMissingSecret, [])
  else
    match req.body with
    | none => (jsonResp 500 SlackPostBody.errCaught, [])
    | some b =>
      if truthyStr b.channel = false ∨ truthyStr b.text = false then
        (jsonResp 400 SlackPostBody.errMissingFields, [])
      else
        slackPostCore (b.channel.getD ("")) (b.text.getD ("")) w

/-- Recognize a `conversations.list` event in a slack-post trace. -/
def isListCall : SlackCall → Bool
  | SlackCall.listCall => true
  | _ => false

/-- Recognize a `chat.postMessage` event in a slack-post trace. -/
def isPostCall : SlackCall → Bool
  | SlackCall.postCall _ _ => true
  | _ => false

/-- Recognize a `conversations.join` event in a slack-post trace. -/
def isJoinCall : SlackCall → Bool
  | SlackCall.joinCall _ => true
  | _ => false

/-- Number of `conversations.list` calls in a trace. -/
def countListCalls (tr : List SlackCall) : Nat := (tr.filter isListCall).length

/-- Number of `chat.postMessage` calls in a trace. -/
def countPostCalls (tr : List SlackCall) : Nat := (tr.filter isPostCall).length

/-- Number of `conversations.join` calls in a trace. -/
def countJoinCalls (tr : List SlackCall) : Nat := (tr.filter isJoinCall).length

/-- The single external call the slack-check handler can make (`auth.test`). -/
inductive SlackCheckCall
  | authTest
deriving DecidableEq

/-- The JSON body shapes the slack-check handler can answer with. -/
inductive SlackCheckBody
  | errMissingSecret
  | errAuth (msg : String)
  | okAuth (team team_id user user_id bot_id url : Option String)
deriving DecidableEq

/-- The slack-check serve handler
(src/frontend/supabase/functions/slack-check/index.ts): OPTIONS
short-circuit, `SLACK_BOT_TOKEN` check, then one `auth.test` call whose
parsed payload is `data`. -/
def slackCheckHandler (method : String) (token : Option String) (data : SlackResp) :
    HttpResponse SlackCheckBody × List SlackCheckCall :=
  if method = ("OPTIONS") then
    ({ status := 200, headers := corsHeaders, body := none }, [])
  else if truthyStr token = false then
    (jsonResp 500 SlackCheckBody.errMissingSecret, [])
  else if data.ok = false then
    (jsonResp 400 (SlackCheckBody.errAuth (orDefault data.error ("Slack auth failed"))),
     [SlackCheckCall.authTest])
  else
    (jsonResp 200 (SlackCheckBody.okAuth data.team data.team_id data.user
       data.user_id data.bot_id data.url),
     [SlackCheckCall.authTest])

/-- The single external call the slack-channels handler can make:
`conversations.list` with the requested (pre-URI-encoding) channel types. -/
inductive SlackChannelsCall
  | listChannels (types : String)
deriving DecidableEq

/-- The JSON body shapes the slack-channels handler can answer with. -/
inductive SlackChannelsBody
  | errMissingSecret
  | errList (details : SlackResp)
  | okChannels (channels : List (Option String × Option String × Option Bool))
deriving DecidableEq

/-- The slack-channels projection of the listed channels:
`(data.channels || []).map(c => ({ id, name, is_private }))`. -/
def slackChannelsView (chs : List SlackChannel) :
    List (Option String × Option String × Option Bool) :=
  chs.map (fun c => (c.id, c.name, c.is_private))

/-- The slack-channels serve handler
(src/frontend/supabase/functions/slack-channels/index.ts): OPTIONS
short-circuit, `SLACK_BOT_TOKEN` check, then one `conversations.list` call
with the `types` query parameter defaulted. -/
def slackChannelsHandler (method : String) (token : Option String)
    (typesParam : Option String) (data : SlackResp) :
    HttpResponse SlackChannelsBody × List SlackChannelsCall :=
  if method = ("OPTIONS") then
    ({ status := 200, headers := corsHeaders, body := none }, [])
  else if truthyStr token = false then
    (jsonResp 500 SlackChannelsBody.errMissingSecret, [])
  else
    let includeTypes := orDefault typesParam ("public_channel,private_channel")
    if data.ok = false then
      (jsonResp 400 (SlackChannelsBody.errList data),
       [SlackChannelsCall.listChannels includeTypes])
    else
      (jsonResp 200 (SlackChannelsBody.okChannels (slackChannelsView data.channels)),
       [SlackChannelsCall.listChannels includeTypes])

/-- A generic upstream HTTP fetch result as read by the Jira and OpenAI
handlers: transport-level `ok`/`status`, the raw body `text`, and the fields
the handlers pick out of the parsed JSON body. -/
structure HttpFetchResp where
  ok : Bool := true
  status : Nat := 200
  text : String := ("")
  accountId : Option String := none
  displayName : Option String := none
  timeZone : Option String := none
  id : Option String := none
  key : Option String := none
  self : Option String := none
  content : Option String := none
deriving DecidableEq

/-- The single external call the jira-check handler can make (`/rest/api/3/myself`). -/
inductive JiraCheckCall
  | myself
deriving DecidableEq

/-- The JSON body shapes the jira-check handler can answer with. -/
inductive JiraCheckBody
  | errMissingSecret
  | errUpstream (status : Nat) (details : String)
  | okUser (accountId displayName timeZone : Option String)
deriving DecidableEq

/-- The jira-check serve handler: OPTIONS short-circuit, check of the three
Jira secrets, then one `myself` call. -/
def jiraCheckHandler (method : String) (baseUrl username apiToken : Option String)
    (resp : HttpFetchResp) : HttpResponse JiraCheckBody × List JiraCheckCall :=
  if method = ("OPTIONS") then
    ({ status := 200, headers := corsHeaders, body := none }, [])
  else if truthyStr baseUrl = false ∨ truthyStr username = false
      ∨ truthyStr apiToken = false then
    (jsonResp 500 JiraCheckBody.errMissingSecret, [])
  else if resp.ok = false then
    (jsonResp 400 (JiraCheckBody.errUpstream resp.status resp.text), [JiraCheckCall.myself])
  else
    (jsonResp 200 (JiraCheckBody.okUser resp.accountId resp.displayName resp.timeZone),
     [JiraCheckCall.myself])

/-- A leaf text node of the Atlassian document built by jira-create-issue. -/
structure AdfText where
  type : String
  text : String
deriving DecidableEq

/-- A paragraph node of the Atlassian document built by jira-create-issue. -/
structure AdfParagraph where
  type : String
  content : List AdfText
deriving DecidableEq

/-- The Atlassian document node built by jira-create-issue. -/
structure AdfDoc where
  type : String
  version : Nat
  content : List AdfParagraph
deriving DecidableEq

/-- The fixed document wrapper jira-create-issue puts around the description
text: `{ type: "doc", version: 1, content: [{ type: "paragraph", content:
[{ type: "text", text }] }] }`. -/
def adfDocOf (t : String) : AdfDoc :=
  { type := ("doc"), version := 1,
    content := [{ type := ("paragraph"),
                  content := [{ type := ("text"), text := t }] }] }

/-- The variable parts of the jira-create-issue upstream payload `fields`. -/
structure JiraIssuePayload where
  projectKey : String
  summary : String
  issuetypeName : String
  description : AdfDoc
deriving DecidableEq

/-- The jira-create-issue payload builder: `issuetype.name` defaults to
`"Task"` and the description text to `""` under JavaScript `||`. -/
def mkJiraPayload (projectKey summary : String) (issueType description : Option String) :
    JiraIssuePayload :=
  { projectKey := projectKey, summary := summary,
    issuetypeName := orDefault issueType ("Task"),
    description := adfDocOf (orDefault description ("")) }

/-- Parsed jira-create-issue request body `{ summary, description, issueType }`. -/
structure JiraCreateReqBody where
  summary : Option String := none
  description : Option String := none
  issueType : Option String := none
deriving DecidableEq

/-- The single external call the jira-create-issue handler can make. -/
inductive JiraCreateCall
  | createIssue (payload : JiraIssuePayload)
deriving DecidableEq

/-- The JSON body shapes the jira-create-issue handler can answer with. -/
inductive JiraCreateBody
  | errMissingSecret
  | errSummaryRequired
  | errUpstream (status : Nat) (details : String)
  | okIssue (id key self : Option String)
  | errCaught
deriving DecidableEq

/-- The four environment secrets jira-create-issue requires. -/
structure JiraEnv where
  jiraUrl : Option String := none
  jiraUsername : Option String := none
  jiraApiToken : Option String := none
  jiraProjectKey : Option String := none
deriving DecidableEq

/-- The jira-create-issue serve handler
(src/frontend/supabase/functions/jira-create-issue/index.ts): OPTIONS
short-circuit, check of the four Jira secrets, summary validation, payload
construction with defaults, then one issue-creation call. -/
def jiraCreateIssueHandler (method : String) (env : JiraEnv)
    (body : Option JiraCreateReqBody) (resp : HttpFetchResp) :
    HttpResponse JiraCreateBody × List JiraCreateCall :=
  if method = ("OPTIONS") then
    ({ status := 200, headers := corsHeaders, body := none }, [])
  else if truthyStr env.jiraUrl = false ∨ truthyStr env.jiraUsername = false
      ∨ truthyStr env.jiraApiToken = false ∨ truthyStr env.jiraProjectKey = false then
    (jsonResp 500 JiraCreateBody.errMissingSecret, [])
  else
    match body with
    | none => (jsonResp 500 JiraCreateBody.errCaught, [])
    | some b =>
      if truthyStr b.summary = false then
        (jsonResp 400 JiraCreateBody.errSummaryRequired, [])
      else
        let payload := mkJiraPayload (env.jiraProjectKey.getD (""))
          (b.summary.getD ("")) b.issueType b.description
        if resp.ok = false then
          (jsonResp 400 (JiraCreateBody.errUpstream resp.status resp.text),
           [JiraCreateCall.createIssue payload])
        else
          (jsonResp 200 (JiraCreateBody.okIssue resp.id resp.key resp.self),
           [JiraCreateCall.createIssue payload])

/-- The default prompt of the ai-check handler. -/
def sayOk : String := "Say \x27ok\x27"

/-- The fixed system message of the ai-check chat request. -/
def aiSystemContent : String :=
  "You are an AI Scrum Master assistant used for quick connectivity checks and drafting short summaries."

/-- The chat-completions request ai-check sends: fixed model and system
message, user message from the (defaulted) prompt. -/
structure OpenAiChatRequest where
  model : String
  systemContent : String
  userContent : String
deriving DecidableEq

/-- The JSON body shapes the ai-check handler can answer with. -/
inductive AiCheckBody
  | errMissingSecret
  | errUpstream (status : Nat) (details : String)
  | okGenerated (generatedText : String)
deriving DecidableEq

/-- The ai-check serve handler: OPTIONS short-circuit, `OPENAI_API_KEY`
check, body parsing with `catch(() => ({ prompt: "Say 'ok'" }))` (modelled by
`body = none`), the `prompt || "Say 'ok'"` default, then one chat call. -/
def aiCheckHandler (method : String) (apiKey : Option String)
    (body : Option (Option String)) (resp : HttpFetchResp) :
    HttpResponse AiCheckBody × List OpenAiChatRequest :=
  if method = ("OPTIONS") then
    ({ status := 200, headers := corsHeaders, body := none }, [])
  else if truthyStr apiKey = false then
    (jsonResp 500 AiCheckBody.errMissingSecret, [])
  else
    let prompt : Option String :=
      match body with
      | none => some sayOk
      | some p => p
    let callReq : OpenAiChatRequest :=
      { model := ("gpt-4o-mini"), systemContent := aiSystemContent,
        userContent := orDefault prompt sayOk }
    if resp.ok = false then
      (jsonResp 400 (AiCheckBody.errUpstream resp.status resp.text), [callReq])
    else
      (jsonResp 200 (AiCheckBody.okGenerated (resp.content.getD (""))), [callReq])

/-- The browser-visible state the HTTP client wrapper mutates: the stored
auth token (`localStorage`, key `auth_token`) and `window.location.href`. -/
structure BrowserState where
  authToken : Option String := none
  location : String := ("")
deriving DecidableEq

/-- An axios error as inspected by the response interceptor:
`error.response?.status`, absent when there was no HTTP response. -/
structure AxiosError where
  responseStatus : Option Nat := none
deriving DecidableEq

/-- Outcome of the response interceptor: the response passed through, or the
error propagated as a rejected promise. -/
inductive InterceptOutcome (α : Type)
  | passed (resp : α)
  | rejected (e : AxiosError)
deriving DecidableEq

/-- The fulfilled branch of the response interceptor in
src/frontend/src/services/api.ts: `(response) => response`. -/
def respInterceptorFulfilled {α : Type} (st : BrowserState) (resp : α) :
    BrowserState × InterceptOutcome α :=
  (st, InterceptOutcome.passed resp)

/-- The rejected branch of the response interceptor in
src/frontend/src/services/api.ts: on status 401 remove the stored token and
navigate to `/login`; in all cases return `Promise.reject(error)`. -/
def respInterceptorRejected {α : Type} (st : BrowserState) (e : AxiosError) :
    BrowserState × InterceptOutcome α :=
  if e.responseStatus = some 401 then
    ({ authToken := none, location := ("/login") }, InterceptOutcome.rejected e)
  else
    (st, InterceptOutcome.rejected e)

/-- Fixture: a slack-post request for the identifier-like channel `C123`. -/
def reqC123 : SlackPostReq :=
  { method := ("POST"), body := some { channel := some ("C123"), text := some ("hi") } }

/-- Fixture: the first post fails with `not_in_channel` and the join fails too. -/
def wJoinFail : SlackPostWorld :=
  { post1 := { ok := false, error := some ("not_in_channel") },
    joinResp := { ok := false }, post2 := { ok := true } }

/-- Fixture: the first post fails with `not_in_channel`, the join succeeds,
and the retry post succeeds. -/
def wJoinOk : SlackPostWorld :=
  { post1 := { ok := false, error := some ("not_in_channel") },
    joinResp := { ok := true },
    post2 := { ok := true, channel := some ("C123"), ts := some ("9.9") } }

/-- Fixture: one listed channel whose `name` differs from `standup` but whose
`name_normalized` equals it. -/
def chansNormalized : List SlackChannel :=
  [{ id := some ("C111"), name := some ("other"), name_normalized := some ("standup") }]

/-- Fixture: a successful list response containing `chansNormalized`, then a
successful post. -/
def wNormalizedMatch : SlackPostWorld :=
  { listResp := { ok := true, channels := chansNormalized },
    post1 := { ok := true, channel := some ("C111"), ts := some ("1.2") } }

/-- Fixture: a slack-post request for the bare channel name `standup`. -/
def reqStandup : SlackPostReq :=
  { method := ("POST"), body := some { channel := some ("standup"), text := some ("hi") } }

/-- Fixture: the `conversations.list` call fails, the post succeeds. -/
def wListFail : SlackPostWorld :=
  { listResp := { ok := false },
    post1 := { ok := true, channel := some ("standup"), ts := some ("1.0") } }

/-- Fixture: a complete Jira environment. -/
def jiraEnvFull : JiraEnv :=
  { jiraUrl := some ("https://x.atlassian.net"), jiraUsername := some ("u@x"),
    jiraApiToken := some ("t"), jiraProjectKey := some ("SCRUM") }

/-- Validation reduction: for a non-OPTIONS request with a nonempty token and
nonempty channel and text fields, the slack-post handler is its core flow. -/
theorem slackPostHandler_eq_core (m tok ch txt : String) (w : SlackPostWorld)
    (hm : m ≠ ("OPTIONS")) (htok : tok ≠ ("")) (hch : ch ≠ ("")) (htxt : txt ≠ ("")) :
    slackPostHandler { method := m, body := some { channel := some ch, text := some txt } }
      (some tok) w = slackPostCore ch txt w := by
  simp [slackPostHandler, truthyStr, hm, htok, hch, htxt]

/-- Shape of the core flow when the first post fails with `not_in_channel`
and the join succeeds: resolve, post, join, retry post. -/
theorem core_nic_join_ok (raw txt : String) (w : SlackPostWorld)
    (h1 : w.post1.ok = false) (h2 : w.post1.error = some ("not_in_channel"))
    (hj : w.joinResp.ok = true) :
    slackPostCore raw txt w
      = (finishPost w.post2,
         resolutionCalls raw
           ++ [SlackCall.postCall (resolvedChannelId raw w.listResp) txt,
               SlackCall.joinCall (resolvedChannelId raw w.listResp),
               SlackCall.postCall (resolvedChannelId raw w.listResp) txt]) := by
  simp [slackPostCore, h1, h2, hj]

/-- Shape of the core flow when the first post fails with `not_in_channel`
and the join fails: resolve, post, join, then the join-error response. -/
theorem core_nic_join_fail (raw txt : String) (w : SlackPostWorld)
    (h1 : w.post1.ok = false) (h2 : w.post1.error = some ("not_in_channel"))
    (hj : w.joinResp.ok = false) :
    slackPostCore raw txt w
      = (jsonResp 400 (SlackPostBody.errJoinFailed w.joinResp),
         resolutionCalls raw
           ++ [SlackCall.postCall (resolvedChannelId raw w.listResp) txt,
               SlackCall.joinCall (resolvedChannelId raw w.listResp)]) := by
  simp [slackPostCore, h1, h2, hj]

/-- Shape of the core flow when the first post does not fail with
`not_in_channel`: resolve, post, done. -/
theorem core_no_retry (raw txt : String) (w : SlackPostWorld)
    (h : ¬ (w.post1.ok = false ∧ w.post1.error = some ("not_in_channel"))) :
    slackPostCore raw txt w
      = (finishPost w.post1,
         resolutionCalls raw
           ++ [SlackCall.postCall (resolvedChannelId raw w.listResp) txt]) := by
  simp only [slackPostCore, if_neg h]

/-- The core flow never performs more than two `chat.postMessage` calls. -/
theorem core_le_two (raw txt : String) (w : SlackPostWorld) :
    countPostCalls (slackPostCore raw txt w).snd ≤ 2 := by
  by_cases hc : w.post1.ok = false ∧ w.post1.error = some ("not_in_channel")
  · cases hj : w.joinResp.ok with
    | true =>
      rw [core_nic_join_ok raw txt w hc.1 hc.2 hj]
      cases hil : isSlackIdLike (stripHash raw) <;>
        simp [resolutionCalls, hil, countPostCalls, isPostCall]
    | false =>
      rw [core_nic_join_fail raw txt w hc.1 hc.2 hj]
      cases hil : isSlackIdLike (stripHash raw) <;>
        simp [resolutionCalls, hil, countPostCalls, isPostCall]
  · rw [core_no_retry raw txt w hc]
    cases hil : isSlackIdLike (stripHash raw) <;>
      simp [resolutionCalls, hil, countPostCalls, isPostCall]

/-- The slack-post handler never performs more than two `chat.postMessage`
calls, whatever the request, token and upstream responses. -/
theorem handler_le_two (r : SlackPostReq) (tok : Option String) (w : SlackPostWorld) :
    countPostCalls (slackPostHandler r tok w).snd ≤ 2 := by
  unfold slackPostHandler
  by_cases h1 : r.method = ("OPTIONS")
  · simp [h1, countPostCalls]
  · rw [if_neg h1]
    by_cases h2 : truthyStr tok = false
    · simp [h2, countPostCalls]
    · rw [if_neg h2]
      cases r.body with
      | none => simp [countPostCalls]
      | some b =>
        by_cases h3 : truthyStr b.channel = false ∨ truthyStr b.text = false
        · simp [h3, countPostCalls]
        · dsimp only
          rw [if_neg h3]
          exact core_le_two _ _ w

/-- Claim C1 (amended): in the slack-post flow, when the first
`chat.postMessage` fails with error `not_in_channel`, exactly one
`conversations.join` call is made; exactly one retry post follows when the
join succeeds, while a failed join terminates the request with a 400
response carrying the join payload as details and no retry; when the first
post fails with any other error, zero join calls are made and the upstream
payload is forwarded as the `details` of a 400 response. -/
theorem claim_C1_not_in_channel_retry (m tok ch txt : String) (w : SlackPostWorld)
    (hm : m ≠ ("OPTIONS")) (htok : tok ≠ ("")) (hch : ch ≠ ("")) (htxt : txt ≠ ("")) :
    (w.post1.ok = false → w.post1.error = some ("not_in_channel") →
      countJoinCalls (slackPostHandler
          { method := m, body := some { channel := some ch, text := some txt } }
          (some tok) w).snd = 1
      ∧ (w.joinResp.ok = true →
          countPostCalls (slackPostHandler
            { method := m, body := some { channel := some ch, text := some txt } }
            (some tok) w).snd = 2)
      ∧ (w.joinResp.ok = false →
          countPostCalls (slackPostHandler
            { method := m, body := some { channel := some ch, text := some txt } }
            (some tok) w).snd = 1
          ∧ (slackPostHandler
              { method := m, body := some { channel := some ch, text := some txt } }
              (some tok) w).fst
            = jsonResp 400 (SlackPostBody.errJoinFailed w.joinResp)))
    ∧ (w.post1.ok = false → w.post1.error ≠ some ("not_in_channel") →
      countJoinCalls (slackPostHandler
          { method := m, body := some { channel := some ch, text := some txt } }
          (some tok) w).snd = 0
      ∧ (slackPostHandler
          { method := m, body := some { channel := some ch, text := some txt } }
          (some tok) w).fst
        = jsonResp 400 (SlackPostBody.errPostFailed w.post1)) := by
  rw [slackPostHandler_eq_core m tok ch txt w hm htok hch htxt]
  constructor
  · intro h1 h2
    refine ⟨?_, ?_, ?_⟩
    · cases hj : w.joinResp.ok with
      | true =>
        rw [core_nic_join_ok ch txt w h1 h2 hj]
        cases hil : isSlackIdLike (stripHash ch) <;>
          simp [resolutionCalls, hil, countJoinCalls, isJoinCall]
      | false =>
        rw [core_nic_join_fail ch txt w h1 h2 hj]
        cases hil : isSlackIdLike (stripHash ch) <;>
          simp [resolutionCalls, hil, countJoinCalls, isJoinCall]
    · intro hj
      rw [core_nic_join_ok ch txt w h1 h2 hj]
      cases hil : isSlackIdLike (stripHash ch) <;>
        simp [resolutionCalls, hil, countPostCalls, isPostCall]
    · intro hj
      rw [core_nic_join_fail ch txt w h1 h2 hj]
      refine ⟨?_, rfl⟩
      cases hil : isSlackIdLike (stripHash ch) <;>
        simp [resolutionCalls, hil, countPostCalls, isPostCall]
  · intro h1 h2
    rw [core_no_retry ch txt w (by simp [h2])]
    refine ⟨?_, ?_⟩
    · cases hil : isSlackIdLike (stripHash ch) <;>
        simp [resolutionCalls, hil, countJoinCalls, isJoinCall]
    · simp [finishPost, h1]

/-- Claim C1 witness: with the join succeeding, the `C123`/`hi` request
yields exactly two `chat.postMessage` calls (one post, one retry). -/
theorem claim_C1_witness :
    countPostCalls (slackPostHandler
      { method := ("POST"), body := some { channel := some ("C123"), text := some ("hi") } }
      (some ("tok")) wJoinOk).snd = 2 :=
  ((claim_C1_not_in_channel_retry ("POST") ("tok") ("C123") ("hi") wJoinOk
      (by decide) (by decide) (by decide) (by decide)).1 rfl rfl).2.1 rfl

/-- Claim C1 counterexample: with the first post failing with
`not_in_channel` and the join failing, the code does NOT make exactly one
join call and exactly one retry post call — only one post is ever made, so
the claim as stated is false at this input. -/
theorem claim_C1_counterexample :
    wJoinFail.post1.ok = false
    ∧ wJoinFail.post1.error = some ("not_in_channel")
    ∧ ¬ (countJoinCalls (slackPostHandler reqC123 (some ("tok")) wJoinFail).snd = 1
        ∧ countPostCalls (slackPostHandler reqC123 (some ("tok")) wJoinFail).snd = 2) := by
  decide

/-- Claim C2 (amended): for a channel reference that does not match the
identifier pattern (after stripping a leading `#`), exactly one
`conversations.list` call is made, first in the trace, and the channel
identifier passed to `chat.postMessage` is `resolveChannel`: the id of the
first listed channel whose `name` OR `name_normalized` equals the
reference (when the list call succeeds and that id is nonempty), and the
unchanged reference otherwise. -/
theorem claim_C2_channel_resolution (m tok ch txt : String) (w : SlackPostWorld)
    (hm : m ≠ ("OPTIONS")) (htok : tok ≠ ("")) (hch : ch ≠ ("")) (htxt : txt ≠ (""))
    (hid : isSlackIdLike (stripHash ch) = false) :
    countListCalls (slackPostHandler
        { method := m, body := some { channel := some ch, text := some txt } }
        (some tok) w).snd = 1
    ∧ (slackPostHandler
        { method := m, body := some { channel := some ch, text := some txt } }
        (some tok) w).snd.head? = some SlackCall.listCall
    ∧ (slackPostHandler
        { method := m, body := some { channel := some ch, text := some txt } }
        (some tok) w).snd.get? 1
      = some (SlackCall.postCall (resolveChannel (stripHash ch) w.listResp) txt) := by
  rw [slackPostHandler_eq_core m tok ch txt w hm htok hch htxt]
  by_cases hc : w.post1.ok = false ∧ w.post1.error = some ("not_in_channel")
  · cases hj : w.joinResp.ok with
    | true =>
      rw [core_nic_join_ok ch txt w hc.1 hc.2 hj]
      simp [resolutionCalls, hid, countListCalls, isListCall, resolvedChannelId]
    | false =>
      rw [core_nic_join_fail ch txt w hc.1 hc.2 hj]
      simp [resolutionCalls, hid, countListCalls, isListCall, resolvedChannelId]
  · rw [core_no_retry ch txt w hc]
    simp [resolutionCalls, hid, countListCalls, isListCall, resolvedChannelId]

/-- Claim C2 witness: the bare name `standup` triggers exactly one
`conversations.list` call. -/
theorem claim_C2_witness :
    countListCalls (slackPostHandler
      { method := ("POST"), body := some { channel := some ("standup"), text := some ("hi") } }
      (some ("tok")) wNormalizedMatch).snd = 1 :=
  (claim_C2_channel_resolution ("POST") ("tok") ("standup") ("hi") wNormalizedMatch
      (by decide) (by decide) (by decide) (by decide) (by decide)).1

/-- Claim C2 counterexample: no listed channel has `name` equal to the
reference `standup`, yet the posted channel identifier is the id `C111` of
the channel whose `name_normalized` matches, not the unchanged reference —
so resolution is not by exact `name` match only, as the claim states. -/
theorem claim_C2_counterexample :
    (∀ c ∈ chansNormalized, ¬ c.name = some ("standup"))
    ∧ (slackPostHandler reqStandup (some ("tok")) wNormalizedMatch).snd
        = [SlackCall.listCall, SlackCall.postCall ("C111") ("hi")]
    ∧ ¬ (slackPostHandler reqStandup (some ("tok")) wNormalizedMatch).snd
        = [SlackCall.listCall, SlackCall.postCall ("standup") ("hi")] := by
  decide

/-- Claim C3: for a channel reference matching the identifier pattern after
stripping a leading `#`, the resolution step is a no-op: no
`conversations.list` call appears in the trace and the stripped reference
itself is the channel posted to. -/
theorem claim_C3_idlike_reference (m tok ch txt : String) (w : SlackPostWorld)
    (hm : m ≠ ("OPTIONS")) (htok : tok ≠ ("")) (hch : ch ≠ ("")) (htxt : txt ≠ (""))
    (hid : isSlackIdLike (stripHash ch) = true) :
    countListCalls (slackPostHandler
        { method := m, body := some { channel := some ch, text := some txt } }
        (some tok) w).snd = 0
    ∧ SlackCall.listCall ∉ (slackPostHandler
        { method := m, body := some { channel := some ch, text := some txt } }
        (some tok) w).snd
    ∧ (slackPostHandler
        { method := m, body := some { channel := some ch, text := some txt } }
        (some tok) w).snd.head? = some (SlackCall.postCall (stripHash ch) txt) := by
  rw [slackPostHandler_eq_core m tok ch txt w hm htok hch htxt]
  unfold slackPostCore resolvedChannelId resolutionCalls
  simp only [hid, if_pos rfl]
  split <;> split <;>
    simp_all [countListCalls, isListCall, finishPost]

/-- Claim C3 witness: the reference `#C123` is used directly, with no list call. -/
theorem claim_C3_witness :
    countListCalls (slackPostHandler
      { method := ("POST"), body := some { channel := some ("#C123"), text := some ("hi") } }
      (some ("tok")) wJoinOk).snd = 0 :=
  (claim_C3_idlike_reference ("POST") ("tok") ("#C123") ("hi") wJoinOk
      (by decide) (by decide) (by decide) (by decide) (by decide)).1

/-- Claim C4 (amended): the slack-post handler attempts at most one retry
post for any single request, and after a first post failing with
`not_in_channel` the trace is exactly resolution, post, join, and then a
retry post exactly when the join succeeded — so the join always completes,
successfully or not, before any retry post, but a retry follows only a
successful join. -/
theorem claim_C4_join_before_retry (m tok ch txt : String) (w : SlackPostWorld)
    (hm : m ≠ ("OPTIONS")) (htok : tok ≠ ("")) (hch : ch ≠ ("")) (htxt : txt ≠ ("")) :
    (∀ r : SlackPostReq, ∀ t : Option String,
      countPostCalls (slackPostHandler r t w).snd ≤ 2)
    ∧ (w.post1.ok = false → w.post1.error = some ("not_in_channel") →
      (slackPostHandler
          { method := m, body := some { channel := some ch, text := some txt } }
          (some tok) w).snd
        = resolutionCalls ch
          ++ [SlackCall.postCall (resolvedChannelId ch w.listResp) txt,
              SlackCall.joinCall (resolvedChannelId ch w.listResp)]
          ++ (if w.joinResp.ok = true
              then [SlackCall.postCall (resolvedChannelId ch w.listResp) txt]
              else [])) := by
  refine ⟨fun r t => handler_le_two r t w, ?_⟩
  intro h1 h2
  rw [slackPostHandler_eq_core m tok ch txt w hm htok hch htxt]
  cases hj : w.joinResp.ok with
  | true =>
    rw [core_nic_join_ok ch txt w h1 h2 hj]
    simp
  | false =>
    rw [core_nic_join_fail ch txt w h1 h2 hj]
    simp

/-- Claim C4 witness: with a succeeding join, the trace is post, join,
retry post — the join precedes the single retry. -/
theorem claim_C4_witness :
    (slackPostHandler
      { method := ("POST"), body := some { channel := some ("C123"), text := some ("hi") } }
      (some ("tok")) wJoinOk).snd
      = [SlackCall.postCall ("C123") ("hi"), SlackCall.joinCall ("C123"),
         SlackCall.postCall ("C123") ("hi")] :=
  (claim_C4_join_before_retry ("POST") ("tok") ("C123") ("hi") wJoinOk
      (by decide) (by decide) (by decide) (by decide)).2 rfl rfl

/-- Claim C4 counterexample: a join call completes (it is in the trace) yet
no retry post follows it, because the join failed — refuting the
parenthetical that a retry post is attempted after every completed join. -/
theorem claim_C4_counterexample :
    countJoinCalls (slackPostHandler reqC123 (some ("tok")) wJoinFail).snd = 1
    ∧ countPostCalls (slackPostHandler reqC123 (some ("tok")) wJoinFail).snd < 2 := by
  decide

/-- Claim C5: for each of the six integration functions, a missing (or
empty, hence falsy) required secret yields a response with status 500 and
an empty trace of external calls, for any non-OPTIONS request. -/
theorem claim_C5_missing_secret (m : String) (hm : m ≠ ("OPTIONS"))
    (tok typesParam jURL jUser jTok aiKey : Option String)
    (wSC wCH : SlackResp) (reqBody : Option SlackPostReqBody) (wSP : SlackPostWorld)
    (wJC wJCI wAI : HttpFetchResp) (env : JiraEnv)
    (jbody : Option JiraCreateReqBody) (aiBody : Option (Option String)) :
    (truthyStr tok = false →
      (slackCheckHandler m tok wSC).fst.status = 500 ∧ (slackCheckHandler m tok wSC).snd = [])
    ∧ (truthyStr tok = false →
      (slackChannelsHandler m tok typesParam wCH).fst.status = 500
      ∧ (slackChannelsHandler m tok typesParam wCH).snd = [])
    ∧ (truthyStr tok = false →
      (slackPostHandler { method := m, body := reqBody } tok wSP).fst.status = 500
      ∧ (slackPostHandler { method := m, body := reqBody } tok wSP).snd = [])
    ∧ (truthyStr jURL = false ∨ truthyStr jUser = false ∨ truthyStr jTok = false →
      (jiraCheckHandler m jURL jUser jTok wJC).fst.status = 500
      ∧ (jiraCheckHandler m jURL jUser jTok wJC).snd = [])
    ∧ (truthyStr env.jiraUrl = false ∨ truthyStr env.jiraUsername = false
        ∨ truthyStr env.jiraApiToken = false ∨ truthyStr env.jiraProjectKey = false →
      (jiraCreateIssueHandler m env jbody wJCI).fst.status = 500
      ∧ (jiraCreateIssueHandler m env jbody wJCI).snd = [])
    ∧ (truthyStr aiKey = false →
      (aiCheckHandler m aiKey aiBody wAI).fst.status = 500
      ∧ (aiCheckHandler m aiKey aiBody wAI).snd = []) := by
  refine ⟨?_, ?_, ?_, ?_, ?_, ?_⟩ <;> intro h <;>
    simp [slackCheckHandler, slackChannelsHandler, slackPostHandler, jiraCheckHandler,
      jiraCreateIssueHandler, aiCheckHandler, hm, h, jsonResp]

/-- Claim C5 witness: with every secret absent, each of the six handlers
answers 500 and performs no external call. -/
theorem claim_C5_witness :
    ((slackCheckHandler ("POST") none {}).fst.status = 500
      ∧ (slackCheckHandler ("POST") none {}).snd = [])
    ∧ ((slackChannelsHandler ("POST") none none {}).fst.status = 500
      ∧ (slackChannelsHandler ("POST") none none {}).snd = [])
    ∧ ((slackPostHandler { method := ("POST"), body := none } none {}).fst.status = 500
      ∧ (slackPostHandler { method := ("POST"), body := none } none {}).snd = [])
    ∧ ((jiraCheckHandler ("POST") none none none {}).fst.status = 500
      ∧ (jiraCheckHandler ("POST") none none none {}).snd = [])
    ∧ ((jiraCreateIssueHandler ("POST") {} none {}).fst.status = 500
      ∧ (jiraCreateIssueHandler ("POST") {} none {}).snd = [])
    ∧ ((aiCheckHandler ("POST") none none {}).fst.status = 500
      ∧ (aiCheckHandler ("POST") none none {}).snd = []) := by
  have h := claim_C5_missing_secret ("POST") (by decide) none none none none none none
    {} {} none {} {} {} {} {} none none
  exact ⟨h.1 rfl, h.2.1 rfl, h.2.2.1 rfl, h.2.2.2.1 (Or.inl rfl),
    h.2.2.2.2.1 (Or.inl rfl), h.2.2.2.2.2 rfl⟩

/-- Claim C6: an OPTIONS request to any of the six integration functions
returns status 200 with an empty body and exactly the configured CORS
headers, performing no external call and independently of every other
input (so the request body is never consulted). -/
theorem claim_C6_options_preflight (tok typesParam jURL jUser jTok aiKey : Option String)
    (wSC wCH : SlackResp) (reqBody : Option SlackPostReqBody) (wSP : SlackPostWorld)
    (wJC wJCI wAI : HttpFetchResp) (env : JiraEnv)
    (jbody : Option JiraCreateReqBody) (aiBody : Option (Option String)) :
    slackCheckHandler ("OPTIONS") tok wSC
        = ({ status := 200, headers := corsHeaders, body := none }, [])
    ∧ slackChannelsHandler ("OPTIONS") tok typesParam wCH
        = ({ status := 200, headers := corsHeaders, body := none }, [])
    ∧ slackPostHandler { method := ("OPTIONS"), body := reqBody } tok wSP
        = ({ status := 200, headers := corsHeaders, body := none }, [])
    ∧ jiraCheckHandler ("OPTIONS") jURL jUser jTok wJC
        = ({ status := 200, headers := corsHeaders, body := none }, [])
    ∧ jiraCreateIssueHandler ("OPTIONS") env jbody wJCI
        = ({ status := 200, headers := corsHeaders, body := none }, [])
    ∧ aiCheckHandler ("OPTIONS") aiKey aiBody wAI
        = ({ status := 200, headers := corsHeaders, body := none }, []) :=
  ⟨rfl, rfl, rfl, rfl, rfl, rfl⟩

/-- Claim C7: in the HTTP client wrapper's response interceptor, an error
whose response status is 401 removes the stored auth token and navigates to
`/login` while still propagating the error as a rejected promise; any other
error leaves the browser state unchanged and is propagated as rejected; a
non-error response passes through unchanged. -/
theorem claim_C7_response_interceptor (α : Type) (st : BrowserState) (e : AxiosError) (r : α) :
    (e.responseStatus = some 401 →
      @respInterceptorRejected α st e
        = ({ authToken := none, location := ("/login") }, InterceptOutcome.rejected e))
    ∧ (e.responseStatus ≠ some 401 →
      @respInterceptorRejected α st e = (st, InterceptOutcome.rejected e))
    ∧ @respInterceptorFulfilled α st r = (st, InterceptOutcome.passed r) := by
  refine ⟨?_, ?_, rfl⟩ <;> intro h <;> simp [respInterceptorRejected, h]

/-- Claim C7 witness: a 401 error clears the stored token and redirects. -/
theorem claim_C7_witness :
    @respInterceptorRejected Nat
        { authToken := some ("t"), location := ("/home") } { responseStatus := some 401 }
      = ({ authToken := none, location := ("/login") },
         InterceptOutcome.rejected { responseStatus := some 401 }) :=
  (claim_C7_response_interceptor Nat
      { authToken := some ("t"), location := ("/home") } { responseStatus := some 401 } 0).1 rfl

/-- Claim C8: when a non-identifier reference needs resolution and the
`conversations.list` call itself returns a non-ok payload, the handler
still proceeds: the list call is followed by a `chat.postMessage` using the
`#`-stripped name unchanged, and if that post succeeds the request
succeeds — a list failure alone never produces an error response. -/
theorem claim_C8_list_failure_proceeds (m tok ch txt : String) (w : SlackPostWorld)
    (hm : m ≠ ("OPTIONS")) (htok : tok ≠ ("")) (hch : ch ≠ ("")) (htxt : txt ≠ (""))
    (hid : isSlackIdLike (stripHash ch) = false) (hlist : w.listResp.ok = false) :
    ((slackPostHandler
        { method := m, body := some { channel := some ch, text := some txt } }
        (some tok) w).snd.get? 0 = some SlackCall.listCall)
    ∧ ((slackPostHandler
        { method := m, body := some { channel := some ch, text := some txt } }
        (some tok) w).snd.get? 1 = some (SlackCall.postCall (stripHash ch) txt))
    ∧ (w.post1.ok = true →
        (slackPostHandler
          { method := m, body := some { channel := some ch, text := some txt } }
          (some tok) w).fst
          = jsonResp 200 (SlackPostBody.okPosted w.post1.channel w.post1.ts)) := by
  rw [slackPostHandler_eq_core m tok ch txt w hm htok hch htxt]
  unfold slackPostCore resolvedChannelId resolutionCalls resolveChannel
  simp only [hid, hlist]
  split <;> split <;>
    simp_all [finishPost, jsonResp]

/-- Claim C8 witness: with a failing list call, `#standup` is posted as
`standup` right after the list attempt. -/
theorem claim_C8_witness :
    (slackPostHandler
      { method := ("POST"), body := some { channel := some ("#standup"), text := some ("hi") } }
      (some ("tok")) wListFail).snd.get? 1 = some (SlackCall.postCall ("standup") ("hi")) :=
  (claim_C8_list_failure_proceeds ("POST") ("tok") ("#standup") ("hi") wListFail
      (by decide) (by decide) (by decide) (by decide) (by decide) rfl).2.1

/-- Claim C9: in the ai-check function, an absent or unparsable body is no
error: the handler behaves exactly as if the body were the default prompt,
the chat call is made with user content `Say 'ok'` (also when the parsed
prompt is absent or empty), and a succeeding upstream call yields 200. -/
theorem claim_C9_default_prompt (m k : String) (w : HttpFetchResp)
    (hm : m ≠ ("OPTIONS")) (hk : k ≠ ("")) :
    aiCheckHandler m (some k) none w = aiCheckHandler m (some k) (some (some sayOk)) w
    ∧ (aiCheckHandler m (some k) none w).snd
        = [{ model := ("gpt-4o-mini"), systemContent := aiSystemContent, userContent := sayOk }]
    ∧ (aiCheckHandler m (some k) (some none) w).snd
        = [{ model := ("gpt-4o-mini"), systemContent := aiSystemContent, userContent := sayOk }]
    ∧ (aiCheckHandler m (some k) (some (some (""))) w).snd
        = [{ model := ("gpt-4o-mini"), systemContent := aiSystemContent, userContent := sayOk }]
    ∧ (w.ok = true → (aiCheckHandler m (some k) none w).fst.status = 200)
    ∧ (w.ok = false → (aiCheckHandler m (some k) none w).fst.status = 400) := by
  refine ⟨rfl, ?_, ?_, ?_, ?_, ?_⟩ <;>
    first
      | (intro h
         cases hok : w.ok <;>
           simp_all [aiCheckHandler, hm, hk, truthyStr, orDefault, jsonResp])
      | (cases hok : w.ok <;>
           simp [aiCheckHandler, hm, hk, truthyStr, orDefault, hok, jsonResp])

/-- Claim C9 witness: with an unparsable body, the chat call carries the
default prompt. -/
theorem claim_C9_witness :
    (aiCheckHandler ("POST") (some ("key")) none {}).snd
      = [{ model := ("gpt-4o-mini"), systemContent := aiSystemContent, userContent := sayOk }] :=
  (claim_C9_default_prompt ("POST") ("key") {} (by decide) (by decide)).2.1

/-- Claim C10: in the jira-create-issue function, with all secrets present,
a falsy summary is the only body condition answered with 400 (and then no
upstream call is made); with a summary present and `issueType` and
`description` omitted, exactly one upstream call is made whose payload
defaults the issue type to `Task` and the description to a document
containing the empty string, and a succeeding upstream call yields 200. -/
theorem claim_C10_jira_defaults (m s : String) (env : JiraEnv) (w : HttpFetchResp)
    (hm : m ≠ ("OPTIONS")) (hs : s ≠ (""))
    (hU : truthyStr env.jiraUrl = true) (hN : truthyStr env.jiraUsername = true)
    (hT : truthyStr env.jiraApiToken = true) (hK : truthyStr env.jiraProjectKey = true) :
    (∀ b : JiraCreateReqBody, truthyStr b.summary = false →
      jiraCreateIssueHandler m env (some b) w
        = (jsonResp 400 JiraCreateBody.errSummaryRequired, []))
    ∧ (jiraCreateIssueHandler m env (some { summary := some s }) w).snd
        = [JiraCreateCall.createIssue
            { projectKey := env.jiraProjectKey.getD (""), summary := s,
              issuetypeName := ("Task"), description := adfDocOf ("") }]
    ∧ (w.ok = true →
        (jiraCreateIssueHandler m env (some { summary := some s }) w).fst.status = 200)
    ∧ (w.ok = false →
        (jiraCreateIssueHandler m env (some { summary := some s }) w).fst.status = 400) := by
  have hsum : truthyStr (some s) = true := by simp [truthyStr, hs]
  refine ⟨?_, ?_, ?_, ?_⟩
  · intro b hb
    simp [jiraCreateIssueHandler, hm, hU, hN, hT, hK, hb]
  · cases hok : w.ok <;>
      simp [jiraCreateIssueHandler, hm, hU, hN, hT, hK, hsum, hok,
        mkJiraPayload, orDefault]
  · intro h
    simp [jiraCreateIssueHandler, hm, hU, hN, hT, hK, hsum, h, jsonResp]
  · intro h
    simp [jiraCreateIssueHandler, hm, hU, hN, hT, hK, hsum, h, jsonResp]

/-- Claim C10 witness: a body with only a summary produces one upstream call
with issue type `Task` and an empty-string description document. -/
theorem claim_C10_witness :
    (jiraCreateIssueHandler ("POST") jiraEnvFull (some { summary := some ("Fix bug") }) {}).snd
      = [JiraCreateCall.createIssue
          { projectKey := ("SCRUM"), summary := ("Fix bug"),
            issuetypeName := ("Task"), description := adfDocOf ("") }] :=
  (claim_C10_jira_defaults ("POST") ("Fix bug") jiraEnvFull {}
      (by decide) (by decide) (by decide) (by decide) (by decide) (by decide)).2.1
